import Mathlib

/-!
Shallow embedding of the admin-account authentication slice of the BM
repository: the AdminSchema mongoose model and the four controller
operations register, login, verifyConfirm and resendConfirmOtp.

The document store is a list of accounts; mongoose findOne returns the
first match, findOneAndUpdate and save update the first match in place.
External outcomes that the controllers branch on are passed as explicit
parameters: the result of bcrypt.compare (pwOk), whether mailer.send
resolved (emailOk), whether the mongoose save callback got an error
(saveOk), and the entropy consumed by the random OTP generator (seed).
-/

namespace BM

/-- Account record, mirroring AdminSchema field by field. Fields isConfirmed,
is_active and status default to 1 (true) in the schema, otpTries to 0;
confirmOTP and image are optional, every other field is required. -/
structure Account where
  id : Nat
  first_name : String
  last_name : String
  email_id : String
  password : String
  isConfirmed : Bool
  is_active : Bool
  confirmOTP : Option String
  otpTries : Nat
  status : Bool
  phone_number : String
  image : Option String
  designation : String
  address : String
  city : String
  state : String
  post_code : String
deriving Repr, DecidableEq

/-- The credential store: the admins collection as a list of documents. -/
abbrev DB := List Account

/-- AdminModel.findOne on an email_id query: first document whose email_id
matches, if any. -/
def findByEmail : DB → String → Option Account
  | [], _ => none
  | a :: as, e => if a.email_id == e then some a else findByEmail as e

/-- AdminModel.findOne on a phone_number query. -/
def findByPhone : DB → String → Option Account
  | [], _ => none
  | a :: as, p => if a.phone_number == p then some a else findByPhone as p

/-- AdminModel.findOneAndUpdate on an email_id query (also user.save after
mutating the found document): rewrite the first document whose email_id
matches with the update f, leave the rest untouched. -/
def updateByEmail : DB → String → (Account → Account) → DB
  | [], _, _ => []
  | a :: as, e, f => if a.email_id == e then f a :: as else a :: updateByEmail as e f

/-- Claims carried by a jsonwebtoken produced by jwt.sign(payload, secret,
\x7bexpiresIn\x7d): the payload fields together with the signing inputs. -/
structure Token where
  id : Nat
  first_name : String
  last_name : String
  email_id : String
  secret : String
  expiresIn : String
deriving Repr, DecidableEq

/-- Payload returned by login and verifyConfirm: userData plus the token. -/
structure AuthData where
  id : Nat
  first_name : String
  last_name : String
  email_id : String
  token : Token
deriving Repr, DecidableEq

/-- Payload returned by a successful register: userData without any token. -/
structure RegisterData where
  id : Nat
  first_name : String
  last_name : String
  email_id : String
  phone_number : String
  designation : String
  address : String
  city : String
  state : String
  post_code : String
deriving Repr, DecidableEq

/-- One outbound email handed to mailer.send. -/
structure Mail where
  sender : String
  recipient : String
  subject : String
  html : String
deriving Repr, DecidableEq

/-- The apiResponse envelope variants the controllers emit. silent records
the case where a rejected mailer.send promise has no catch handler, so the
controller sends no response at all. -/
inductive Response where
  | validationError (msg : String) (errors : List String)
  | unauthorized (msg : String)
  | successMsg (msg : String)
  | successAuth (msg : String) (d : AuthData)
  | successRegister (msg : String) (d : RegisterData)
  | errorResponse (msg : String)
  | silent
deriving Repr, DecidableEq

/-- Result of one controller call: the response sent, the store afterwards,
and the mails handed to mailer.send. -/
structure Outcome where
  resp : Response
  db : DB
  sent : List Mail
deriving Repr, DecidableEq

/-- Modelled from the spec: process configuration read by the controllers
but not under src/ (process.env.JWT_SECRET, process.env.JWT_TIMEOUT_DURATION
and helpers/constants confirmEmails.from). The spec describes the signing
key and expiry as configuration values and the mail sender as a constant. -/
structure Config where
  jwtSecret : String
  jwtTimeout : String
  emailFrom : String
deriving Repr, DecidableEq

/-- Modelled from the spec: helpers/utility randomNumber is not under src/;
the spec says the service generates a 6-digit numeric one-time code. We model
it as a function of the required length and an entropy seed that returns a
string of exactly len decimal digits. -/
def randomNumber (len : Nat) (seed : Nat) : String :=
  String.mk ((List.range len).map (fun i => Char.ofNat (48 + seed / 10 ^ i % 10)))

/-- jwt.sign(userData, secret, \x7bexpiresIn: timeout\x7d) for the userData
built from a found account in login and verifyConfirm. -/
def mkToken (u : Account) (cfg : Config) : Token :=
  { id := u.id, first_name := u.first_name, last_name := u.last_name,
    email_id := u.email_id, secret := cfg.jwtSecret, expiresIn := cfg.jwtTimeout }

/-- express-validator isLength check with its withMessage text: an error when
the value is shorter than minLen. -/
def lengthErr (v : String) (minLen : Nat) (msg : String) : List String :=
  if v.length < minLen then [msg] else []

/-- Model of the third-party validator.js isEmail check used by
express-validator: email-plausible means a nonempty local part and a
nonempty domain separated by a single at-sign. -/
def isEmailShaped (s : String) : Bool :=
  s.data.count '@' == 1 && s.data.head? != some '@' && s.data.getLast? != some '@'

/-- The isEmail validator with its withMessage text. -/
def emailErr (v : String) : List String :=
  if isEmailShaped v then [] else ["Email must be a valid email address."]

/-- Model of the third-party validator.js isAlphanumeric check used by
express-validator: nonempty and every character an ASCII letter or digit. -/
def alnumErr (v : String) (msg : String) : List String :=
  if v ≠ "" && v.data.all Char.isAlphanum then [] else [msg]

/-- Input fields the register controller reads from req.body. -/
structure RegisterInput where
  first_name : String
  last_name : String
  email_id : String
  password : String
  phone_number : String
  designation : String
  address : String
  city : String
  state : String
  post_code : String
deriving Repr, DecidableEq

/-- Errors accumulated by the register validation chains, in chain order:
first_name (isLength, isAlphanumeric), last_name (isLength, isAlphanumeric),
email_id (isLength, isEmail, custom duplicate lookup), phone_number
(isLength, custom duplicate lookup), password (isLength min 6). Every chain
runs in full, so all violations are collected together. -/
def registerErrors (db : DB) (inp : RegisterInput) : List String :=
  lengthErr inp.first_name 1 "First name must be specified."
  ++ alnumErr inp.first_name "First name has non-alphanumeric characters."
  ++ lengthErr inp.last_name 1 "Last name must be specified."
  ++ alnumErr inp.last_name "Last name has non-alphanumeric characters."
  ++ lengthErr inp.email_id 1 "Email must be specified."
  ++ emailErr inp.email_id
  ++ (if (findByEmail db inp.email_id).isSome then ["E-mail already in use"] else [])
  ++ lengthErr inp.phone_number 1 "Phone must be specified."
  ++ (if (findByPhone db inp.phone_number).isSome then ["Phone number already in use"] else [])
  ++ lengthErr inp.password 6 "Password must be 6 characters or greater."

/-- The new AdminModel document register builds: request fields plus the
bcrypt hash and the fresh OTP. isConfirmed, is_active and status come from
the schema defaults (all 1, hence true), otpTries from its default 0, and
image is not supplied. -/
def regAccount (inp : RegisterInput) (hash : String) (otp : String) (newId : Nat) : Account :=
  { id := newId, first_name := inp.first_name, last_name := inp.last_name,
    email_id := inp.email_id, password := hash,
    isConfirmed := true, is_active := true,
    confirmOTP := some otp, otpTries := 0, status := true,
    phone_number := inp.phone_number, image := none,
    designation := inp.designation, address := inp.address,
    city := inp.city, state := inp.state, post_code := inp.post_code }

/-- The userData object register returns on success. -/
def regData (inp : RegisterInput) (newId : Nat) : RegisterData :=
  { id := newId, first_name := inp.first_name, last_name := inp.last_name,
    email_id := inp.email_id, phone_number := inp.phone_number,
    designation := inp.designation, address := inp.address,
    city := inp.city, state := inp.state, post_code := inp.post_code }

/-- The register controller. On validation errors it replies immediately;
otherwise it hashes the password (hash is the bcrypt result), draws an OTP,
sends the confirmation mail, and only when the send resolved saves the new
document; a send rejection or a save error yields an ErrorResponse. -/
def register (db : DB) (inp : RegisterInput) (hash : String) (seed : Nat)
    (newId : Nat) (emailOk saveOk : Bool) (cfg : Config) : Outcome :=
  if registerErrors db inp ≠ [] then
    { resp := .validationError "Validation Error." (registerErrors db inp),
      db := db, sent := [] }
  else
    let otp := randomNumber 6 seed
    let mail : Mail :=
      { sender := cfg.emailFrom, recipient := inp.email_id,
        subject := "Confirm Account",
        html := "<p>Please Confirm your Account.</p><p>OTP: " ++ otp ++ "</p>" }
    if emailOk then
      if saveOk then
        { resp := .successRegister "Registration Success." (regData inp newId),
          db := db ++ [regAccount inp hash otp newId], sent := [mail] }
      else
        { resp := .errorResponse "save error", db := db, sent := [mail] }
    else
      { resp := .errorResponse "mail error", db := db, sent := [] }

/-- Errors accumulated by the login validation chains. -/
def loginErrors (email password : String) : List String :=
  lengthErr email 1 "Email must be specified."
  ++ emailErr email
  ++ lengthErr password 1 "Password must be specified."

/-- The login controller. pwOk is the bcrypt.compare result for the found
document; when no document matches the email it is never consulted. The
active check reads the status field of the document. On success the store
is updated through findOneAndUpdate with isConfirmed 1 and the fresh OTP,
and the response carries a token signed over the userData payload. A
rejected mailer.send has no catch handler here, so no response is sent. -/
def login (db : DB) (email password : String) (pwOk : Bool) (seed : Nat)
    (emailOk : Bool) (cfg : Config) : Outcome :=
  if loginErrors email password ≠ [] then
    { resp := .validationError "Validation Error." (loginErrors email password),
      db := db, sent := [] }
  else
    match findByEmail db email with
    | some user =>
      if pwOk then
        if user.isConfirmed then
          if user.status then
            let otp := randomNumber 6 seed
            let mail : Mail :=
              { sender := cfg.emailFrom, recipient := email,
                subject := "Confirm Account",
                html := "<p>Please Login your Account.</p><p>OTP: " ++ otp ++ "</p>" }
            if emailOk then
              { resp := .successAuth "Login Success."
                  { id := user.id, first_name := user.first_name,
                    last_name := user.last_name, email_id := user.email_id,
                    token := mkToken user cfg },
                db := updateByEmail db email (fun a =>
                  { a with isConfirmed := true, confirmOTP := some otp }),
                sent := [mail] }
            else
              { resp := .silent, db := db, sent := [] }
          else
            { resp := .unauthorized "Account is not active. Please contact admin.",
              db := db, sent := [] }
        else
          { resp := .unauthorized "Account is not confirmed. Please confirm your account.",
            db := db, sent := [] }
      else
        { resp := .unauthorized "Email or Password wrong.", db := db, sent := [] }
    | none =>
      { resp := .unauthorized "Email or Password wrong.", db := db, sent := [] }

/-- Errors accumulated by the verifyConfirm validation chains. -/
def verifyErrors (email otp : String) : List String :=
  lengthErr email 1 "Email must be specified."
  ++ emailErr email
  ++ lengthErr otp 1 "OTP must be specified."

/-- JavaScript loose equality between the stored confirmOTP (possibly null)
and the submitted otp string: null compares unequal to every string. -/
def otpMatches : Option String → String → Bool
  | none, _ => false
  | some s, t => s == t

/-- The verifyConfirm controller. The already-confirmed guard in the source
is literally if (true), so its else branch is unreachable. On an OTP match
the document is updated with isConfirmed 1 and confirmOTP null and a signed
token over the userData payload is returned. -/
def verifyConfirm (db : DB) (email otp : String) (cfg : Config) : Outcome :=
  if verifyErrors email otp ≠ [] then
    { resp := .validationError "Validation Error." (verifyErrors email otp),
      db := db, sent := [] }
  else
    match findByEmail db email with
    | some user =>
      if (true : Bool) then
        if otpMatches user.confirmOTP otp then
          { resp := .successAuth "Login Success."
              { id := user.id, first_name := user.first_name,
                last_name := user.last_name, email_id := user.email_id,
                token := mkToken user cfg },
            db := updateByEmail db email (fun a =>
              { a with isConfirmed := true, confirmOTP := none }),
            sent := [] }
        else
          { resp := .unauthorized "Otp does not match", db := db, sent := [] }
      else
        { resp := .unauthorized "Account already confirmed.", db := db, sent := [] }
    | none =>
      { resp := .unauthorized "Specified email not found.", db := db, sent := [] }

/-- Errors accumulated by the resendConfirmOtp validation chain. -/
def resendErrors (email : String) : List String :=
  lengthErr email 1 "Email must be specified." ++ emailErr email

/-- The resendConfirmOtp controller. The already-confirmed guard is again
literally if (true). It draws a fresh OTP, mails it, and once the send
resolved sets isConfirmed to 0 and confirmOTP to the fresh code on the
document and saves it; a save error yields an ErrorResponse, a send
rejection has no catch handler so no response is sent. -/
def resendConfirmOtp (db : DB) (email : String) (seed : Nat)
    (emailOk saveOk : Bool) (cfg : Config) : Outcome :=
  if resendErrors email ≠ [] then
    { resp := .validationError "Validation Error." (resendErrors email),
      db := db, sent := [] }
  else
    match findByEmail db email with
    | some _ =>
      if (true : Bool) then
        let otp := randomNumber 6 seed
        let mail : Mail :=
          { sender := cfg.emailFrom, recipient := email,
            subject := "Confirm Account",
            html := "<p>Please Login your Account.</p><p>OTP: " ++ otp ++ "</p>" }
        if emailOk then
          if saveOk then
            { resp := .successMsg "Confirm otp sent.",
              db := updateByEmail db email (fun a =>
                { a with isConfirmed := false, confirmOTP := some otp }),
              sent := [mail] }
          else
            { resp := .errorResponse "save error", db := db, sent := [mail] }
        else
          { resp := .silent, db := db, sent := [] }
      else
        { resp := .unauthorized "Account already confirmed.", db := db, sent := [] }
    | none =>
      { resp := .unauthorized "Specified email not found.", db := db, sent := [] }

/-! Store lemmas. -/

/-- Updating the document found under an email and looking the email up again
returns the updated document, provided the update keeps the email. -/
theorem findByEmail_updateByEmail (db : DB) (e : String) (f : Account → Account)
    (hf : ∀ a, (f a).email_id = a.email_id) (u : Account)
    (hu : findByEmail db e = some u) :
    findByEmail (updateByEmail db e f) e = some (f u) := by
  induction db with
  | nil => simp [findByEmail] at hu
  | cons a as ih =>
    rw [findByEmail] at hu
    rw [updateByEmail]
    by_cases h : a.email_id == e
    · rw [if_pos h] at hu
      injection hu with hu
      subst hu
      rw [if_pos h, findByEmail, hf a, if_pos h]
    · rw [if_neg h] at hu
      rw [if_neg h, findByEmail, if_neg h]
      exact ih hu

/-- Pointwise agreement of two account records on every field other than
isConfirmed and confirmOTP. -/
def agreesOutsideOtp (a b : Account) : Bool :=
  a.id == b.id && a.first_name == b.first_name && a.last_name == b.last_name &&
  a.email_id == b.email_id && a.password == b.password &&
  a.is_active == b.is_active && a.otpTries == b.otpTries &&
  a.status == b.status && a.phone_number == b.phone_number &&
  a.image == b.image && a.designation == b.designation &&
  a.address == b.address && a.city == b.city && a.state == b.state &&
  a.post_code == b.post_code

theorem agreesOutsideOtp_refl (a : Account) : agreesOutsideOtp a a = true := by
  simp [agreesOutsideOtp]

/-- Two stores are frame-related when they pair up document for document and
every pair agrees outside isConfirmed and confirmOTP. -/
def dbFrame (db db' : DB) : Prop :=
  List.Forall₂ (fun a b => agreesOutsideOtp a b = true) db db'

theorem dbFrame_refl (db : DB) : dbFrame db db := by
  rw [dbFrame, List.forall₂_same]
  intro a _
  exact agreesOutsideOtp_refl a

/-- updateByEmail with an update that touches only isConfirmed and
confirmOTP is frame-preserving. -/
theorem dbFrame_updateByEmail (db : DB) (e : String) (f : Account → Account)
    (hf : ∀ a, agreesOutsideOtp a (f a) = true) :
    dbFrame db (updateByEmail db e f) := by
  induction db with
  | nil => exact dbFrame_refl []
  | cons a as ih =>
    rw [updateByEmail]
    by_cases h : a.email_id == e
    · rw [if_pos h]
      exact List.Forall₂.cons (hf a) (dbFrame_refl as)
    · rw [if_neg h]
      exact List.Forall₂.cons (agreesOutsideOtp_refl a) ih

theorem dbFrame_length (db db' : DB) (h : dbFrame db db') : db.length = db'.length :=
  List.Forall₂.length_eq h

/-! Facts about the modelled OTP generator. -/

theorem randomNumber_length (len seed : Nat) : (randomNumber len seed).length = len := by
  simp [randomNumber, String.length]

theorem digitChar_isDigit : ∀ k < 10, (Char.ofNat (48 + k)).isDigit = true := by decide

theorem randomNumber_digits (len seed : Nat) :
    ((randomNumber len seed).data.all Char.isDigit) = true := by
  rw [randomNumber]
  simp only [String.data]
  rw [List.all_eq_true]
  intro c hc
  rw [List.mem_map] at hc
  obtain ⟨i, _, rfl⟩ := hc
  exact digitChar_isDigit _ (Nat.mod_lt _ (by norm_num))

/-! Concrete fixtures used by witnesses and counterexamples. -/

def cfg0 : Config :=
  { jwtSecret := "s3cr3t", jwtTimeout := "3600", emailFrom := "noreply@bm.test" }

def janeAccount : Account :=
  { id := 1, first_name := "Jane", last_name := "Doe", email_id := "jane@x.com",
    password := "hashed", isConfirmed := true, is_active := true,
    confirmOTP := some "123456", otpTries := 0, status := true,
    phone_number := "5550100", image := none, designation := "Admin",
    address := "1 Main", city := "Metro", state := "ST", post_code := "99999" }

def janeInput : RegisterInput :=
  { first_name := "Jane", last_name := "Doe", email_id := "jane@x.com",
    password := "secret1", phone_number := "5550100", designation := "Admin",
    address := "1 Main", city := "Metro", state := "ST", post_code := "99999" }

/-- Pushing a record that changes only isConfirmed and confirmOTP keeps
every other field, so it agrees with the original outside those two. -/
theorem agreesOutsideOtp_setOtp (a : Account) (c : Bool) (o : Option String) :
    agreesOutsideOtp a { a with isConfirmed := c, confirmOTP := o } = true := by
  simp [agreesOutsideOtp]

/-! Claim theorems. -/

/-- C4: for every login call with an existing account and a matching
password, the confirmation check runs before the activity check: when
isConfirmed is false the reply is the Unauthorized confirmation message,
whatever the activity fields hold, and the store is untouched. -/
theorem C4_login_confirmation_checked_first (db : DB) (email password : String)
    (seed : Nat) (emailOk : Bool) (cfg : Config) (u : Account)
    (hval : loginErrors email password = []) (hfind : findByEmail db email = some u)
    (hconf : u.isConfirmed = false) :
    login db email password true seed emailOk cfg =
      { resp := .unauthorized "Account is not confirmed. Please confirm your account.",
        db := db, sent := [] } := by
  simp only [login, hval, hfind]
  simp [hconf]

/-- C4 witness. -/
theorem C4_login_confirmation_checked_first_witness :
    login [{ janeAccount with isConfirmed := false, status := false }]
        "jane@x.com" "secret1" true 5 true cfg0 =
      { resp := .unauthorized "Account is not confirmed. Please confirm your account.",
        db := [{ janeAccount with isConfirmed := false, status := false }], sent := [] } :=
  C4_login_confirmation_checked_first
    [{ janeAccount with isConfirmed := false, status := false }]
    "jane@x.com" "secret1" 5 true cfg0
    { janeAccount with isConfirmed := false, status := false }
    (by decide) (by decide) (by decide)

/-- C5: for every verifyConfirm call on an existing account where the
submitted otp equals the stored confirmOTP, the stored document flips to
isConfirmed true with confirmOTP cleared to null, and the reply carries a
token signed over exactly the identity claims of the account. -/
theorem C5_verify_correct_otp (db : DB) (email otp : String) (cfg : Config) (u : Account)
    (hval : verifyErrors email otp = []) (hfind : findByEmail db email = some u)
    (hotp : u.confirmOTP = some otp) :
    (verifyConfirm db email otp cfg).resp = .successAuth "Login Success."
      { id := u.id, first_name := u.first_name, last_name := u.last_name,
        email_id := u.email_id, token := mkToken u cfg } ∧
    findByEmail (verifyConfirm db email otp cfg).db email =
      some { u with isConfirmed := true, confirmOTP := none } ∧
    (mkToken u cfg).id = u.id ∧ (mkToken u cfg).first_name = u.first_name ∧
    (mkToken u cfg).last_name = u.last_name ∧ (mkToken u cfg).email_id = u.email_id := by
  have hred : verifyConfirm db email otp cfg =
      { resp := .successAuth "Login Success."
          { id := u.id, first_name := u.first_name, last_name := u.last_name,
            email_id := u.email_id, token := mkToken u cfg },
        db := updateByEmail db email (fun a =>
          { a with isConfirmed := true, confirmOTP := none }),
        sent := [] } := by
    simp only [verifyConfirm, hval, hfind]
    simp [otpMatches, hotp]
  refine ⟨by rw [hred], ?_, rfl, rfl, rfl, rfl⟩
  rw [hred]
  exact findByEmail_updateByEmail db email
    (fun a => { a with isConfirmed := true, confirmOTP := none }) (fun a => rfl) u hfind

/-- C5 witness. -/
theorem C5_verify_correct_otp_witness :
    (verifyConfirm [janeAccount] "jane@x.com" "123456" cfg0).resp =
      Response.successAuth "Login Success."
        { id := janeAccount.id, first_name := janeAccount.first_name,
          last_name := janeAccount.last_name, email_id := janeAccount.email_id,
          token := mkToken janeAccount cfg0 } ∧
    findByEmail (verifyConfirm [janeAccount] "jane@x.com" "123456" cfg0).db "jane@x.com" =
      some { janeAccount with isConfirmed := true, confirmOTP := none } ∧
    (mkToken janeAccount cfg0).id = janeAccount.id ∧
    (mkToken janeAccount cfg0).first_name = janeAccount.first_name ∧
    (mkToken janeAccount cfg0).last_name = janeAccount.last_name ∧
    (mkToken janeAccount cfg0).email_id = janeAccount.email_id :=
  C5_verify_correct_otp [janeAccount] "jane@x.com" "123456" cfg0 janeAccount
    (by decide) (by decide) (by decide)

/-- C6: for every verifyConfirm call on an existing account where the
submitted otp differs from the stored confirmOTP, the reply is the
Unauthorized otp-mismatch message and the store, hence the isConfirmed flag
and the stored OTP, is left unchanged. -/
theorem C6_verify_wrong_otp (db : DB) (email otp : String) (cfg : Config) (u : Account)
    (hval : verifyErrors email otp = []) (hfind : findByEmail db email = some u)
    (hne : u.confirmOTP ≠ some otp) :
    verifyConfirm db email otp cfg =
      { resp := .unauthorized "Otp does not match", db := db, sent := [] } := by
  have hm : otpMatches u.confirmOTP otp = false := by
    cases h : u.confirmOTP with
    | none => rfl
    | some s =>
      rw [otpMatches, beq_eq_false_iff_ne]
      intro hcontra
      exact hne (by rw [h, hcontra])
  simp only [verifyConfirm, hval, hfind]
  simp [hm]

/-- C6 witness. -/
theorem C6_verify_wrong_otp_witness :
    verifyConfirm [janeAccount] "jane@x.com" "999999" cfg0 =
      { resp := .unauthorized "Otp does not match", db := [janeAccount], sent := [] } :=
  C6_verify_wrong_otp [janeAccount] "jane@x.com" "999999" cfg0 janeAccount
    (by decide) (by decide) (by decide)

/-- C7: a login with an email matching no account and a login with an
existing account but a failing password comparison both reply Unauthorized
with the identical generic message, so the reply does not reveal whether
the email exists. -/
theorem C7_login_generic_unauthorized (db : DB) (e1 p1 e2 p2 : String) (pw1 : Bool)
    (s1 s2 : Nat) (m1 m2 : Bool) (cfg : Config) (u : Account)
    (hv1 : loginErrors e1 p1 = []) (hv2 : loginErrors e2 p2 = [])
    (h1 : findByEmail db e1 = none) (h2 : findByEmail db e2 = some u) :
    login db e1 p1 pw1 s1 m1 cfg =
      { resp := .unauthorized "Email or Password wrong.", db := db, sent := [] } ∧
    login db e2 p2 false s2 m2 cfg =
      { resp := .unauthorized "Email or Password wrong.", db := db, sent := [] } ∧
    (login db e1 p1 pw1 s1 m1 cfg).resp = (login db e2 p2 false s2 m2 cfg).resp := by
  have ha : login db e1 p1 pw1 s1 m1 cfg =
      { resp := .unauthorized "Email or Password wrong.", db := db, sent := [] } := by
    simp only [login, hv1, h1]
    simp
  have hb : login db e2 p2 false s2 m2 cfg =
      { resp := .unauthorized "Email or Password wrong.", db := db, sent := [] } := by
    simp only [login, hv2, h2]
    simp
  exact ⟨ha, hb, by rw [ha, hb]⟩

/-- C7 witness. -/
theorem C7_login_generic_unauthorized_witness :
    login [janeAccount] "nobody@x.com" "secret1" true 3 true cfg0 =
      { resp := .unauthorized "Email or Password wrong.", db := [janeAccount], sent := [] } ∧
    login [janeAccount] "jane@x.com" "wrongpass" false 4 true cfg0 =
      { resp := .unauthorized "Email or Password wrong.", db := [janeAccount], sent := [] } ∧
    (login [janeAccount] "nobody@x.com" "secret1" true 3 true cfg0).resp =
      (login [janeAccount] "jane@x.com" "wrongpass" false 4 true cfg0).resp :=
  C7_login_generic_unauthorized [janeAccount] "nobody@x.com" "secret1" "jane@x.com"
    "wrongpass" true 3 4 true true cfg0 janeAccount
    (by decide) (by decide) (by decide) (by decide)

/-- C3: every resendConfirmOtp call on an existing account, confirmed or
not, regenerates a 6-digit code, flips the stored document to isConfirmed
false with the fresh code, and acknowledges with a plain success reply and
no token; the already-confirmed rejection reply is never produced, whatever
the delivery and save outcomes. -/
theorem C3_resend_always_regenerates (db : DB) (email : String) (seed : Nat)
    (cfg : Config) (u : Account) (emailOk' saveOk' : Bool)
    (hval : resendErrors email = []) (hfind : findByEmail db email = some u) :
    (resendConfirmOtp db email seed true true cfg).resp = .successMsg "Confirm otp sent." ∧
    findByEmail (resendConfirmOtp db email seed true true cfg).db email =
      some { u with isConfirmed := false, confirmOTP := some (randomNumber 6 seed) } ∧
    (randomNumber 6 seed).length = 6 ∧
    (resendConfirmOtp db email seed emailOk' saveOk' cfg).resp ≠
      .unauthorized "Account already confirmed." := by
  have hred : resendConfirmOtp db email seed true true cfg =
      { resp := .successMsg "Confirm otp sent.",
        db := updateByEmail db email (fun a =>
          { a with isConfirmed := false, confirmOTP := some (randomNumber 6 seed) }),
        sent := [{ sender := cfg.emailFrom, recipient := email,
                   subject := "Confirm Account",
                   html := "<p>Please Login your Account.</p><p>OTP: "
                     ++ randomNumber 6 seed ++ "</p>" }] } := by
    simp only [resendConfirmOtp, hval, hfind]
    simp
  refine ⟨by rw [hred], ?_, randomNumber_length 6 seed, ?_⟩
  · rw [hred]
    exact findByEmail_updateByEmail db email
      (fun a => { a with isConfirmed := false, confirmOTP := some (randomNumber 6 seed) })
      (fun a => rfl) u hfind
  · simp only [resendConfirmOtp, hval, hfind]
    cases emailOk' <;> cases saveOk' <;> simp

/-- C3 witness. -/
theorem C3_resend_always_regenerates_witness :
    (resendConfirmOtp [janeAccount] "jane@x.com" 271828 true true cfg0).resp =
      Response.successMsg "Confirm otp sent." ∧
    findByEmail (resendConfirmOtp [janeAccount] "jane@x.com" 271828 true true cfg0).db
        "jane@x.com" =
      some { janeAccount with isConfirmed := false, confirmOTP := some (randomNumber 6 271828) } ∧
    (randomNumber 6 271828).length = 6 ∧
    (resendConfirmOtp [janeAccount] "jane@x.com" 271828 false false cfg0).resp ≠
      Response.unauthorized "Account already confirmed." :=
  C3_resend_always_regenerates [janeAccount] "jane@x.com" 271828 cfg0 janeAccount
    false false (by decide) (by decide)

/-- The account persisted by the C1 counterexample registration. -/
def janePersisted : Account := regAccount janeInput "hash1" (randomNumber 6 314159) 7

/-- C1 counterexample: a fully valid registration whose confirmation mail is
sent and whose save succeeds persists an account with isConfirmed true, not
false: register never sets the flag and the schema default is 1. -/
theorem C1_register_counterexample :
    (register [] janeInput "hash1" 314159 7 true true cfg0).resp =
      Response.successRegister "Registration Success." (regData janeInput 7) ∧
    (register [] janeInput "hash1" 314159 7 true true cfg0).db = [janePersisted] ∧
    janePersisted.isConfirmed = true ∧ ¬(janePersisted.isConfirmed = false) := by
  refine ⟨?_, ?_, rfl, by decide⟩ <;> decide

/-- C1 amended: for every register call that passes all validations and
whose confirmation mail is sent and save succeeds, the persisted account
carries the schema default isConfirmed true together with a 6-digit numeric
confirmOTP, and the mail sent holds that code. -/
theorem C1_register_persists_confirmed_true (db : DB) (inp : RegisterInput)
    (hash : String) (seed newId : Nat) (cfg : Config)
    (hval : registerErrors db inp = []) :
    (register db inp hash seed newId true true cfg).resp =
      .successRegister "Registration Success." (regData inp newId) ∧
    (register db inp hash seed newId true true cfg).db =
      db ++ [regAccount inp hash (randomNumber 6 seed) newId] ∧
    (regAccount inp hash (randomNumber 6 seed) newId).isConfirmed = true ∧
    (regAccount inp hash (randomNumber 6 seed) newId).confirmOTP =
      some (randomNumber 6 seed) ∧
    (randomNumber 6 seed).length = 6 ∧
    ((randomNumber 6 seed).data.all Char.isDigit) = true ∧
    (register db inp hash seed newId true true cfg).sent =
      [{ sender := cfg.emailFrom, recipient := inp.email_id,
         subject := "Confirm Account",
         html := "<p>Please Confirm your Account.</p><p>OTP: "
           ++ randomNumber 6 seed ++ "</p>" }] := by
  have hred : register db inp hash seed newId true true cfg =
      { resp := .successRegister "Registration Success." (regData inp newId),
        db := db ++ [regAccount inp hash (randomNumber 6 seed) newId],
        sent := [{ sender := cfg.emailFrom, recipient := inp.email_id,
                   subject := "Confirm Account",
                   html := "<p>Please Confirm your Account.</p><p>OTP: "
                     ++ randomNumber 6 seed ++ "</p>" }] } := by
    simp only [register, hval]
    simp
  exact ⟨by rw [hred], by rw [hred], rfl, rfl, randomNumber_length 6 seed,
    randomNumber_digits 6 seed, by rw [hred]⟩

/-- C1 amended witness. -/
theorem C1_register_persists_confirmed_true_witness :
    (register [] janeInput "hash1" 314159 7 true true cfg0).resp =
      Response.successRegister "Registration Success." (regData janeInput 7) ∧
    (register [] janeInput "hash1" 314159 7 true true cfg0).db =
      [] ++ [regAccount janeInput "hash1" (randomNumber 6 314159) 7] ∧
    (regAccount janeInput "hash1" (randomNumber 6 314159) 7).isConfirmed = true ∧
    (regAccount janeInput "hash1" (randomNumber 6 314159) 7).confirmOTP =
      some (randomNumber 6 314159) ∧
    (randomNumber 6 314159).length = 6 ∧
    ((randomNumber 6 314159).data.all Char.isDigit) = true ∧
    (register [] janeInput "hash1" 314159 7 true true cfg0).sent =
      [{ sender := cfg0.emailFrom, recipient := janeInput.email_id,
         subject := "Confirm Account",
         html := "<p>Please Confirm your Account.</p><p>OTP: "
           ++ randomNumber 6 314159 ++ "</p>" }] :=
  C1_register_persists_confirmed_true [] janeInput "hash1" 314159 7 cfg0 (by decide)

/-- An account that is administratively deactivated through is_active but
still has status true. -/
def inactiveJane : Account := { janeAccount with is_active := false }

/-- C2 counterexample: with an existing account, a matching password,
isConfirmed true and is_active false, login does not reply with the
inactive message; it succeeds and issues a token, because the code gates on
the status field and never reads is_active. -/
theorem C2_login_counterexample :
    inactiveJane.is_active = false ∧ inactiveJane.isConfirmed = true ∧
    (login [inactiveJane] "jane@x.com" "secret1" true 271828 true cfg0).resp ≠
      Response.unauthorized "Account is not active. Please contact admin." ∧
    (login [inactiveJane] "jane@x.com" "secret1" true 271828 true cfg0).resp =
      Response.successAuth "Login Success."
        { id := inactiveJane.id, first_name := inactiveJane.first_name,
          last_name := inactiveJane.last_name, email_id := inactiveJane.email_id,
          token := mkToken inactiveJane cfg0 } := by
  refine ⟨rfl, rfl, by decide, by decide⟩

/-- C2 amended: the activity gate of login reads the status field: for
every login call with an existing account, a matching password and
isConfirmed true, when status is false the reply is Unauthorized with the
inactive message, no token is issued and the store is untouched, whatever
is_active holds. -/
theorem C2_login_inactive_status (db : DB) (email password : String) (seed : Nat)
    (emailOk : Bool) (cfg : Config) (u : Account)
    (hval : loginErrors email password = []) (hfind : findByEmail db email = some u)
    (hconf : u.isConfirmed = true) (hstat : u.status = false) :
    login db email password true seed emailOk cfg =
      { resp := .unauthorized "Account is not active. Please contact admin.",
        db := db, sent := [] } := by
  simp only [login, hval, hfind]
  simp [hconf, hstat]

/-- C2 amended witness. -/
theorem C2_login_inactive_status_witness :
    login [{ janeAccount with status := false }] "jane@x.com" "secret1" true 9 true cfg0 =
      { resp := Response.unauthorized "Account is not active. Please contact admin.",
        db := [{ janeAccount with status := false }], sent := [] } :=
  C2_login_inactive_status [{ janeAccount with status := false }] "jane@x.com"
    "secret1" 9 true cfg0 { janeAccount with status := false }
    (by decide) (by decide) (by decide) (by decide)

/-- C8: for every register call whose email or phone already belongs to a
stored account, the reply is a ValidationError carrying the whole
accumulated error list, that list holds the matching duplicate message, and
the store is unchanged. -/
theorem C8_register_duplicate_rejected (db : DB) (inp : RegisterInput) (hash : String)
    (seed newId : Nat) (emailOk saveOk : Bool) (cfg : Config)
    (hdup : findByEmail db inp.email_id ≠ none ∨ findByPhone db inp.phone_number ≠ none) :
    register db inp hash seed newId emailOk saveOk cfg =
      { resp := .validationError "Validation Error." (registerErrors db inp),
        db := db, sent := [] } ∧
    (findByEmail db inp.email_id ≠ none →
      "E-mail already in use" ∈ registerErrors db inp) ∧
    (findByPhone db inp.phone_number ≠ none →
      "Phone number already in use" ∈ registerErrors db inp) := by
  have hmemEmail : findByEmail db inp.email_id ≠ none →
      "E-mail already in use" ∈ registerErrors db inp := by
    intro h
    have hs : (findByEmail db inp.email_id).isSome = true :=
      Option.isSome_iff_ne_none.mpr h
    rw [registerErrors]
    simp [hs, List.mem_append]
  have hmemPhone : findByPhone db inp.phone_number ≠ none →
      "Phone number already in use" ∈ registerErrors db inp := by
    intro h
    have hs : (findByPhone db inp.phone_number).isSome = true :=
      Option.isSome_iff_ne_none.mpr h
    rw [registerErrors]
    simp [hs, List.mem_append]
  have hne : registerErrors db inp ≠ [] := by
    rcases hdup with h | h
    · exact List.ne_nil_of_mem (hmemEmail h)
    · exact List.ne_nil_of_mem (hmemPhone h)
  refine ⟨?_, hmemEmail, hmemPhone⟩
  rw [register, if_pos hne]

/-- C8 witness. -/
theorem C8_register_duplicate_rejected_witness :
    register [janeAccount] janeInput "hash2" 11 8 true true cfg0 =
      { resp := Response.validationError "Validation Error."
          (registerErrors [janeAccount] janeInput),
        db := [janeAccount], sent := [] } ∧
    (findByEmail [janeAccount] janeInput.email_id ≠ none →
      "E-mail already in use" ∈ registerErrors [janeAccount] janeInput) ∧
    (findByPhone [janeAccount] janeInput.phone_number ≠ none →
      "Phone number already in use" ∈ registerErrors [janeAccount] janeInput) :=
  C8_register_duplicate_rejected [janeAccount] janeInput "hash2" 11 8 true true cfg0
    (Or.inl (by decide))

/-- C9: for every login call that passes the password, confirmation and
activity checks and whose mail is delivered, the service draws a fresh
6-digit numeric code, mails it to the account email, persists the code
while re-setting isConfirmed true, and replies with a token signed over the
identity and name claims under the configured secret and expiry. -/
theorem C9_login_issues_token (db : DB) (email password : String) (seed : Nat)
    (cfg : Config) (u : Account)
    (hval : loginErrors email password = []) (hfind : findByEmail db email = some u)
    (hconf : u.isConfirmed = true) (hact : u.status = true) :
    (login db email password true seed true cfg).resp = .successAuth "Login Success."
      { id := u.id, first_name := u.first_name, last_name := u.last_name,
        email_id := u.email_id, token := mkToken u cfg } ∧
    (login db email password true seed true cfg).sent =
      [{ sender := cfg.emailFrom, recipient := email, subject := "Confirm Account",
         html := "<p>Please Login your Account.</p><p>OTP: "
           ++ randomNumber 6 seed ++ "</p>" }] ∧
    findByEmail (login db email password true seed true cfg).db email =
      some { u with isConfirmed := true, confirmOTP := some (randomNumber 6 seed) } ∧
    (randomNumber 6 seed).length = 6 ∧
    ((randomNumber 6 seed).data.all Char.isDigit) = true ∧
    (mkToken u cfg).secret = cfg.jwtSecret ∧
    (mkToken u cfg).expiresIn = cfg.jwtTimeout := by
  have hred : login db email password true seed true cfg =
      { resp := .successAuth "Login Success."
          { id := u.id, first_name := u.first_name, last_name := u.last_name,
            email_id := u.email_id, token := mkToken u cfg },
        db := updateByEmail db email (fun a =>
          { a with isConfirmed := true, confirmOTP := some (randomNumber 6 seed) }),
        sent := [{ sender := cfg.emailFrom, recipient := email,
                   subject := "Confirm Account",
                   html := "<p>Please Login your Account.</p><p>OTP: "
                     ++ randomNumber 6 seed ++ "</p>" }] } := by
    simp only [login, hval, hfind]
    simp [hconf, hact]
  refine ⟨by rw [hred], by rw [hred], ?_, randomNumber_length 6 seed,
    randomNumber_digits 6 seed, rfl, rfl⟩
  rw [hred]
  exact findByEmail_updateByEmail db email
    (fun a => { a with isConfirmed := true, confirmOTP := some (randomNumber 6 seed) })
    (fun a => rfl) u hfind

/-- C9 witness. -/
theorem C9_login_issues_token_witness :
    (login [janeAccount] "jane@x.com" "secret1" true 271828 true cfg0).resp =
      Response.successAuth "Login Success."
        { id := janeAccount.id, first_name := janeAccount.first_name,
          last_name := janeAccount.last_name, email_id := janeAccount.email_id,
          token := mkToken janeAccount cfg0 } ∧
    (login [janeAccount] "jane@x.com" "secret1" true 271828 true cfg0).sent =
      [{ sender := cfg0.emailFrom, recipient := "jane@x.com",
         subject := "Confirm Account",
         html := "<p>Please Login your Account.</p><p>OTP: "
           ++ randomNumber 6 271828 ++ "</p>" }] ∧
    findByEmail (login [janeAccount] "jane@x.com" "secret1" true 271828 true cfg0).db
        "jane@x.com" =
      some { janeAccount with isConfirmed := true, confirmOTP := some (randomNumber 6 271828) } ∧
    (randomNumber 6 271828).length = 6 ∧
    ((randomNumber 6 271828).data.all Char.isDigit) = true ∧
    (mkToken janeAccount cfg0).secret = cfg0.jwtSecret ∧
    (mkToken janeAccount cfg0).expiresIn = cfg0.jwtTimeout :=
  C9_login_issues_token [janeAccount] "jane@x.com" "secret1" 271828 cfg0 janeAccount
    (by decide) (by decide) (by decide) (by decide)

/-- Every store a login call can leave behind is frame-related to the input
store. -/
theorem login_dbFrame (db : DB) (email password : String) (pwOk : Bool) (seed : Nat)
    (emailOk : Bool) (cfg : Config) :
    dbFrame db (login db email password pwOk seed emailOk cfg).db := by
  simp only [login]
  split
  · exact dbFrame_refl db
  · split
    · split
      · split
        · split
          · split
            · exact dbFrame_updateByEmail db email _
                (fun a => agreesOutsideOtp_setOtp a true (some (randomNumber 6 seed)))
            · exact dbFrame_refl db
          · exact dbFrame_refl db
        · exact dbFrame_refl db
      · exact dbFrame_refl db
    · exact dbFrame_refl db

/-- Every store a verifyConfirm call can leave behind is frame-related to
the input store. -/
theorem verifyConfirm_dbFrame (db : DB) (email otp : String) (cfg : Config) :
    dbFrame db (verifyConfirm db email otp cfg).db := by
  simp only [verifyConfirm]
  split
  · exact dbFrame_refl db
  · split
    · split
      · split
        · exact dbFrame_updateByEmail db email _
            (fun a => agreesOutsideOtp_setOtp a true none)
        · exact dbFrame_refl db
      · exact dbFrame_refl db
    · exact dbFrame_refl db

/-- Every store a resendConfirmOtp call can leave behind is frame-related
to the input store. -/
theorem resendConfirmOtp_dbFrame (db : DB) (email : String) (seed : Nat)
    (emailOk saveOk : Bool) (cfg : Config) :
    dbFrame db (resendConfirmOtp db email seed emailOk saveOk cfg).db := by
  simp only [resendConfirmOtp]
  split
  · exact dbFrame_refl db
  · split
    · split
      · split
        · split
          · exact dbFrame_updateByEmail db email _
              (fun a => agreesOutsideOtp_setOtp a false (some (randomNumber 6 seed)))
          · exact dbFrame_refl db
        · exact dbFrame_refl db
      · exact dbFrame_refl db
    · exact dbFrame_refl db

/-- C10: every login, verifyConfirm and resendConfirmOtp call on a store
holding the account leaves a store of the same length whose documents agree
with the originals on every field other than isConfirmed and confirmOTP; in
particular no account is deleted and no other field is mutated. -/
theorem C10_only_confirm_fields_mutated (db : DB) (u : Account)
    (email password otp : String) (pwOk : Bool) (seed seed2 : Nat)
    (emailOk emailOk2 saveOk : Bool) (cfg : Config)
    (hfind : findByEmail db email = some u) :
    ((login db email password pwOk seed emailOk cfg).db.length = db.length ∧
      dbFrame db (login db email password pwOk seed emailOk cfg).db) ∧
    ((verifyConfirm db email otp cfg).db.length = db.length ∧
      dbFrame db (verifyConfirm db email otp cfg).db) ∧
    ((resendConfirmOtp db email seed2 emailOk2 saveOk cfg).db.length = db.length ∧
      dbFrame db (resendConfirmOtp db email seed2 emailOk2 saveOk cfg).db) := by
  have h1 := login_dbFrame db email password pwOk seed emailOk cfg
  have h2 := verifyConfirm_dbFrame db email otp cfg
  have h3 := resendConfirmOtp_dbFrame db email seed2 emailOk2 saveOk cfg
  exact ⟨⟨(dbFrame_length _ _ h1).symm, h1⟩, ⟨(dbFrame_length _ _ h2).symm, h2⟩,
    ⟨(dbFrame_length _ _ h3).symm, h3⟩⟩

/-- C10 witness. -/
theorem C10_only_confirm_fields_mutated_witness :
    ((login [janeAccount] "jane@x.com" "secret1" true 21 true cfg0).db.length =
        [janeAccount].length ∧
      dbFrame [janeAccount]
        (login [janeAccount] "jane@x.com" "secret1" true 21 true cfg0).db) ∧
    ((verifyConfirm [janeAccount] "jane@x.com" "123456" cfg0).db.length =
        [janeAccount].length ∧
      dbFrame [janeAccount]
        (verifyConfirm [janeAccount] "jane@x.com" "123456" cfg0).db) ∧
    ((resendConfirmOtp [janeAccount] "jane@x.com" 22 true true cfg0).db.length =
        [janeAccount].length ∧
      dbFrame [janeAccount]
        (resendConfirmOtp [janeAccount] "jane@x.com" 22 true true cfg0).db) :=
  C10_only_confirm_fields_mutated [janeAccount] janeAccount "jane@x.com" "secret1"
    "123456" true 21 22 true true true cfg0 (by decide)

end BM
